import Mathlib

/-!
Shallow embedding of the `surgeon` repository's core:
fixed-width bit primitives (`src/primitives.rs`), the 802.1Q tag codec and
EtherType classification (`src/layer/eth_layer.rs`), and the Ethernet layer
data model.  Machine integers (u8/u16) are modelled as `Nat`; the source
performs only comparisons, masking and shifting on them, none of which
overflow, so no wraparound modelling is required.  Fallible operations
return `Except`; Rust's `&mut self` setters are modelled as functions
returning the result together with the post-state.
-/

/-- `BitPrimitiveError` from `src/primitives.rs`. -/
inductive BitPrimitiveError where
  | ValueOutOfRange
deriving DecidableEq, Repr

/-! ### Bit (1-bit primitive) -/

/-- `struct Bit { value: u8 }`. -/
structure Bit where
  value : Nat
deriving DecidableEq, Repr

def Bit.BIT_WIDTH : Nat := 1

def Bit.MIN_VALUE : Nat := 0

/-- Source: `2u8.pow(Self::BIT_WIDTH - 1)`. -/
def Bit.MAX_VALUE : Nat := 2 ^ (Bit.BIT_WIDTH - 1)

def Bit.is_valid (self : Bit) : Bool :=
  decide (Bit.MIN_VALUE ≤ self.value ∧ self.value ≤ Bit.MAX_VALUE)

def Bit.set (self : Bit) (value : Nat) : Except BitPrimitiveError Unit × Bit :=
  if Bit.MIN_VALUE ≤ value ∧ value ≤ Bit.MAX_VALUE then
    (Except.ok (), { value := value })
  else
    (Except.error BitPrimitiveError.ValueOutOfRange, self)

def Bit.try_from (value : Nat) : Except BitPrimitiveError Bit :=
  if Bit.MIN_VALUE ≤ value ∧ value ≤ Bit.MAX_VALUE then
    Except.ok { value := value }
  else
    Except.error BitPrimitiveError.ValueOutOfRange

/-- `#[derive(Default)]` zero-initialises the wrapped integer. -/
def Bit.default : Bit := { value := 0 }

/-! ### Crumb (2-bit primitive) -/

/-- `struct Crumb { value: u8 }`. -/
structure Crumb where
  value : Nat
deriving DecidableEq, Repr

def Crumb.BIT_WIDTH : Nat := 2

def Crumb.MIN_VALUE : Nat := 0

/-- Source: `2u8.pow(Self::BIT_WIDTH) - 1`. -/
def Crumb.MAX_VALUE : Nat := 2 ^ Crumb.BIT_WIDTH - 1

def Crumb.is_valid (self : Crumb) : Bool :=
  decide (Crumb.MIN_VALUE ≤ self.value ∧ self.value ≤ Crumb.MAX_VALUE)

def Crumb.set (self : Crumb) (value : Nat) : Except BitPrimitiveError Unit × Crumb :=
  if Crumb.MIN_VALUE ≤ value ∧ value ≤ Crumb.MAX_VALUE then
    (Except.ok (), { value := value })
  else
    (Except.error BitPrimitiveError.ValueOutOfRange, self)

def Crumb.try_from (value : Nat) : Except BitPrimitiveError Crumb :=
  if Crumb.MIN_VALUE ≤ value ∧ value ≤ Crumb.MAX_VALUE then
    Except.ok { value := value }
  else
    Except.error BitPrimitiveError.ValueOutOfRange

def Crumb.default : Crumb := { value := 0 }

/-! ### U3 (3-bit primitive) -/

/-- `struct U3 { value: u8 }`. -/
structure U3 where
  value : Nat
deriving DecidableEq, Repr

def U3.BIT_WIDTH : Nat := 3

def U3.MIN_VALUE : Nat := 0

/-- Source: `2u8.pow(Self::BIT_WIDTH) - 1`. -/
def U3.MAX_VALUE : Nat := 2 ^ U3.BIT_WIDTH - 1

def U3.is_valid (self : U3) : Bool :=
  decide (U3.MIN_VALUE ≤ self.value ∧ self.value ≤ U3.MAX_VALUE)

def U3.set (self : U3) (value : Nat) : Except BitPrimitiveError Unit × U3 :=
  if U3.MIN_VALUE ≤ value ∧ value ≤ U3.MAX_VALUE then
    (Except.ok (), { value := value })
  else
    (Except.error BitPrimitiveError.ValueOutOfRange, self)

def U3.try_from (value : Nat) : Except BitPrimitiveError U3 :=
  if U3.MIN_VALUE ≤ value ∧ value ≤ U3.MAX_VALUE then
    Except.ok { value := value }
  else
    Except.error BitPrimitiveError.ValueOutOfRange

def U3.default : U3 := { value := 0 }

/-! ### Nibble (4-bit primitive) -/

/-- `struct Nibble { value: u8 }`. -/
structure Nibble where
  value : Nat
deriving DecidableEq, Repr

def Nibble.BIT_WIDTH : Nat := 4

def Nibble.MIN_VALUE : Nat := 0

/-- Source: `2u8.pow(Self::BIT_WIDTH) - 1`. -/
def Nibble.MAX_VALUE : Nat := 2 ^ Nibble.BIT_WIDTH - 1

def Nibble.is_valid (self : Nibble) : Bool :=
  decide (Nibble.MIN_VALUE ≤ self.value ∧ self.value ≤ Nibble.MAX_VALUE)

def Nibble.set (self : Nibble) (value : Nat) : Except BitPrimitiveError Unit × Nibble :=
  if Nibble.MIN_VALUE ≤ value ∧ value ≤ Nibble.MAX_VALUE then
    (Except.ok (), { value := value })
  else
    (Except.error BitPrimitiveError.ValueOutOfRange, self)

def Nibble.try_from (value : Nat) : Except BitPrimitiveError Nibble :=
  if Nibble.MIN_VALUE ≤ value ∧ value ≤ Nibble.MAX_VALUE then
    Except.ok { value := value }
  else
    Except.error BitPrimitiveError.ValueOutOfRange

def Nibble.default : Nibble := { value := 0 }

/-! ### U12 (12-bit primitive) -/

/-- `struct U12 { value: u16 }`. -/
structure U12 where
  value : Nat
deriving DecidableEq, Repr

def U12.BIT_WIDTH : Nat := 12

def U12.MIN_VALUE : Nat := 0

/-- Source: `2u16.pow(Self::BIT_WIDTH) - 1`. -/
def U12.MAX_VALUE : Nat := 2 ^ U12.BIT_WIDTH - 1

def U12.is_valid (self : U12) : Bool :=
  decide (U12.MIN_VALUE ≤ self.value ∧ self.value ≤ U12.MAX_VALUE)

def U12.set (self : U12) (value : Nat) : Except BitPrimitiveError Unit × U12 :=
  if U12.MIN_VALUE ≤ value ∧ value ≤ U12.MAX_VALUE then
    (Except.ok (), { value := value })
  else
    (Except.error BitPrimitiveError.ValueOutOfRange, self)

def U12.try_from (value : Nat) : Except BitPrimitiveError U12 :=
  if U12.MIN_VALUE ≤ value ∧ value ≤ U12.MAX_VALUE then
    Except.ok { value := value }
  else
    Except.error BitPrimitiveError.ValueOutOfRange

def U12.default : U12 := { value := 0 }

/-! ### Reachable states of the primitives

A primitive is reachable when it is produced by the validated factory, by
`default`, or by a successful `set` on a reachable primitive. -/

inductive Bit.Reachable : Bit → Prop where
  | of_try_from (v : Nat) (p : Bit) : Bit.try_from v = Except.ok p → Bit.Reachable p
  | of_default : Bit.Reachable Bit.default
  | of_set (p : Bit) (v : Nat) : Bit.Reachable p → (Bit.set p v).1 = Except.ok () →
      Bit.Reachable (Bit.set p v).2

inductive Crumb.Reachable : Crumb → Prop where
  | of_try_from (v : Nat) (p : Crumb) : Crumb.try_from v = Except.ok p → Crumb.Reachable p
  | of_default : Crumb.Reachable Crumb.default
  | of_set (p : Crumb) (v : Nat) : Crumb.Reachable p → (Crumb.set p v).1 = Except.ok () →
      Crumb.Reachable (Crumb.set p v).2

inductive U3.Reachable : U3 → Prop where
  | of_try_from (v : Nat) (p : U3) : U3.try_from v = Except.ok p → U3.Reachable p
  | of_default : U3.Reachable U3.default
  | of_set (p : U3) (v : Nat) : U3.Reachable p → (U3.set p v).1 = Except.ok () →
      U3.Reachable (U3.set p v).2

inductive Nibble.Reachable : Nibble → Prop where
  | of_try_from (v : Nat) (p : Nibble) : Nibble.try_from v = Except.ok p → Nibble.Reachable p
  | of_default : Nibble.Reachable Nibble.default
  | of_set (p : Nibble) (v : Nat) : Nibble.Reachable p → (Nibble.set p v).1 = Except.ok () →
      Nibble.Reachable (Nibble.set p v).2

inductive U12.Reachable : U12 → Prop where
  | of_try_from (v : Nat) (p : U12) : U12.try_from v = Except.ok p → U12.Reachable p
  | of_default : U12.Reachable U12.default
  | of_set (p : U12) (v : Nat) : U12.Reachable p → (U12.set p v).1 = Except.ok () →
      U12.Reachable (U12.set p v).2

/-! ### 802.1Q tag codec (`src/layer/eth_layer.rs`) -/

/-- Bitwise NOT on a 16-bit word (Rust `!` on `u16`). -/
def not16 (x : Nat) : Nat := x ^^^ 0xFFFF

/-- `struct Q802_1Tag { tpid: u16, tic: u16 }`. -/
structure Q802_1Tag where
  tpid : Nat
  tic : Nat
deriving DecidableEq, Repr

/-- `const TPID: u16 = 0x8100`. -/
def Q802_1Tag.TPID : Nat := 0x8100

/-- `fn new(tic: u16)`. -/
def Q802_1Tag.new (tic : Nat) : Q802_1Tag :=
  { tpid := Q802_1Tag.TPID, tic := tic }

/-- `fn is_valid(self)`: TPID equality check. -/
def Q802_1Tag.is_valid (self : Q802_1Tag) : Bool :=
  self.tpid == Q802_1Tag.TPID

/-- `fn is_drop_eligible(self)`: `((self.tic & 0b0001_0000_0000_0000) >> 12) == 1`. -/
def Q802_1Tag.is_drop_eligible (self : Q802_1Tag) : Bool :=
  ((self.tic &&& 0x1000) >>> 12) == 1

/-- `fn set_drop_eligible(&mut self, value: bool)`:
`self.tic = (self.tic & !(1 << 12)) | ((value as u16) << 12)`. -/
def Q802_1Tag.set_drop_eligible (self : Q802_1Tag) (value : Bool) : Q802_1Tag :=
  { self with tic := (self.tic &&& not16 (1 <<< 12)) ||| ((if value then 1 else 0) <<< 12) }

/-- `fn pcp(self)`: `(self.tic & 0b1110_0000_0000_0000) >> 13`. -/
def Q802_1Tag.pcp (self : Q802_1Tag) : Nat :=
  (self.tic &&& 0xE000) >>> 13

/-- `fn set_pcp(&mut self, pcp)`: range check against `0b0000_0111`, then
`self.tic = (self.tic & !(0b111 << 13)) | (pcp << 13)`. -/
def Q802_1Tag.set_pcp (self : Q802_1Tag) (pcp : Nat) :
    Except BitPrimitiveError Unit × Q802_1Tag :=
  if pcp ≤ 0x7 then
    (Except.ok (), { self with tic := (self.tic &&& not16 (0x7 <<< 13)) ||| (pcp <<< 13) })
  else
    (Except.error BitPrimitiveError.ValueOutOfRange, self)

/-- `fn vid(self)`: `self.tic & 0b0000_1111_1111_1111`. -/
def Q802_1Tag.vid (self : Q802_1Tag) : Nat :=
  self.tic &&& 0xFFF

/-- `fn set_vid(&mut self, vid)`: range check against `0b0000_1111_1111_1111`,
then `self.tic |= vid` (additive OR, no clearing of the old VID bits). -/
def Q802_1Tag.set_vid (self : Q802_1Tag) (vid : Nat) :
    Except BitPrimitiveError Unit × Q802_1Tag :=
  if vid ≤ 0xFFF then
    (Except.ok (), { self with tic := self.tic ||| vid })
  else
    (Except.error BitPrimitiveError.ValueOutOfRange, self)

/-- `impl Default for Q802_1Tag`: standard TPID and an all-zero TCI. -/
def Q802_1Tag.default : Q802_1Tag :=
  { tpid := Q802_1Tag.TPID, tic := 0 }

/-! ### EtherType classification and the Ethernet layer -/

/-- `enum EthError` from `src/layer/eth_layer.rs`. -/
inductive EthError where
  | EtherTypeIsLength
  | UnknownEtherType
deriving DecidableEq, Repr

/-- `enum EtherType { IPv4 = 0x0800, Empty = 0x0000 }`. -/
inductive EtherType where
  | IPv4
  | Empty
deriving DecidableEq, Repr

/-- The `#[repr(u16)]` discriminant of each `EtherType` variant. -/
def EtherType.code : EtherType → Nat
  | EtherType.IPv4 => 0x0800
  | EtherType.Empty => 0x0000

/-- `impl TryFrom<u16> for EtherType`: guard `value <= 1500` first, then the
`0x0800` arm, then the catch-all. -/
def EtherType.tryFrom (value : Nat) : Except EthError EtherType :=
  if value ≤ 1500 then Except.error EthError.EtherTypeIsLength
  else if value = 0x0800 then Except.ok EtherType.IPv4
  else Except.error EthError.UnknownEtherType

/-- `struct MacAddr(u8, u8, u8, u8, u8, u8)` from `src/mac_address.rs`. -/
structure MacAddr where
  b0 : Nat
  b1 : Nat
  b2 : Nat
  b3 : Nat
  b4 : Nat
  b5 : Nat
deriving DecidableEq, Repr

/-- `#[derive(Default)]` zero-initialises all six octets. -/
def MacAddr.default : MacAddr := ⟨0, 0, 0, 0, 0, 0⟩

/-- `struct EthLayer` from `src/layer/eth_layer.rs`. -/
structure EthLayer where
  src_mac : MacAddr
  dst_mac : MacAddr
  q802_1q_tag : Option Q802_1Tag
  ether_type : EtherType
deriving DecidableEq, Repr

/-- `impl Default for EthLayer`: default MACs, no tag, `EtherType::Empty`. -/
def EthLayer.default : EthLayer :=
  { src_mac := MacAddr.default
    dst_mac := MacAddr.default
    q802_1q_tag := none
    ether_type := EtherType.Empty }

/-! ### Bit-arithmetic helper lemmas -/

theorem and_shiftRight (x y n : Nat) : (x &&& y) >>> n = (x >>> n) &&& (y >>> n) := by
  apply Nat.eq_of_testBit_eq
  intro i
  simp [Nat.testBit_and, Nat.testBit_shiftRight]

theorem and_4095_eq_mod (x : Nat) : x &&& 4095 = x % 4096 := by
  have h := Nat.and_pow_two_sub_one_eq_mod x 12
  norm_num at h
  exact h

theorem and_8191_eq_mod (x : Nat) : x &&& 8191 = x % 8192 := by
  have h := Nat.and_pow_two_sub_one_eq_mod x 13
  norm_num at h
  exact h

theorem and_7_eq_mod (x : Nat) : x &&& 7 = x % 8 := by
  have h := Nat.and_pow_two_sub_one_eq_mod x 3
  norm_num at h
  exact h

/-- A value below `2^n` is annihilated by any mask disjoint from the low `n` bits. -/
theorem and_eq_zero_of_lt (x n m : Nat) (hx : x < 2 ^ n) (hm : (2 ^ n - 1) &&& m = 0) :
    x &&& m = 0 := by
  have h1 : x &&& (2 ^ n - 1) = x := Nat.and_pow_two_sub_one_of_lt_two_pow hx
  calc x &&& m = (x &&& (2 ^ n - 1)) &&& m := by rw [h1]
    _ = x &&& ((2 ^ n - 1) &&& m) := Nat.and_assoc x _ m
    _ = x &&& 0 := by rw [hm]
    _ = 0 := Nat.and_zero x

/-- Arithmetic reading of the PCP getter: bits 15–13 of the TCI word. -/
theorem Q802_1Tag.pcp_eq (tag : Q802_1Tag) : tag.pcp = tag.tic / 8192 % 8 := by
  show (tag.tic &&& 57344) >>> 13 = tag.tic / 8192 % 8
  rw [and_shiftRight]
  have h1 : (57344 : Nat) >>> 13 = 7 := by decide
  rw [h1, and_7_eq_mod, Nat.shiftRight_eq_div_pow]

/-- Arithmetic reading of the VID getter: the low 12 bits of the TCI word. -/
theorem Q802_1Tag.vid_eq (tag : Q802_1Tag) : tag.vid = tag.tic % 4096 := by
  show tag.tic &&& 4095 = tag.tic % 4096
  exact and_4095_eq_mod tag.tic

/-- Arithmetic reading of the DEI getter: bit 12 of the TCI word. -/
theorem Q802_1Tag.dei_eq (tag : Q802_1Tag) :
    tag.is_drop_eligible = (tag.tic / 4096 % 2 == 1) := by
  show (((tag.tic &&& 4096) >>> 12) == 1) = ((tag.tic / 4096 % 2) == 1)
  rw [and_shiftRight]
  have h1 : (4096 : Nat) >>> 12 = 1 := by decide
  rw [h1, Nat.and_one_is_mod, Nat.shiftRight_eq_div_pow]

/-- Reading mask `m` after keeping mask `k` and OR-ing in bits `c`: when the
written bits miss `m` and `k` covers `m`, the read is unchanged. -/
theorem and_or_and_mask (t c m k : Nat) (h1 : c &&& m = 0) (h2 : k &&& m = m) :
    ((t &&& k) ||| c) &&& m = t &&& m := by
  rw [Nat.and_distrib_right, h1, Nat.or_zero, Nat.and_assoc, h2]

/-- Reading mask `m` after keeping mask `k` and OR-ing in bits `c`: when `k`
misses `m` and `c` lies inside `m`, the read returns exactly `c`. -/
theorem and_or_and_mask_set (t c m k : Nat) (h1 : k &&& m = 0) (h2 : c &&& m = c) :
    ((t &&& k) ||| c) &&& m = c := by
  rw [Nat.and_distrib_right, Nat.and_assoc, h1, Nat.and_zero, Nat.zero_or, h2]

/-! ### Effect of `set_pcp` -/

theorem set_pcp_ok (tag : Q802_1Tag) (p : Nat) (hp : p ≤ 7) :
    (tag.set_pcp p).1 = Except.ok () := by
  simp [Q802_1Tag.set_pcp, hp]

theorem set_pcp_err (tag : Q802_1Tag) (p : Nat) (hp : 7 < p) :
    (tag.set_pcp p).1 = Except.error BitPrimitiveError.ValueOutOfRange ∧
      (tag.set_pcp p).2 = tag := by
  have hnp : ¬ p ≤ 7 := by omega
  simp [Q802_1Tag.set_pcp, hnp]

/-- On success, `set_pcp` stores `p` in bits 15–13 and keeps the low 13 bits. -/
theorem set_pcp_tic (tag : Q802_1Tag) (p : Nat) (hp : p ≤ 7) :
    ((tag.set_pcp p).2).tic = p * 8192 + tag.tic % 8192 := by
  simp only [Q802_1Tag.set_pcp, if_pos hp]
  have h1 : not16 (7 <<< 13) = 8191 := by decide
  have h2 : tag.tic % 8192 < 2 ^ 13 := by
    have hpow : (2 : Nat) ^ 13 = 8192 := by norm_num
    rw [hpow]
    omega
  calc (tag.tic &&& not16 (0x7 <<< 13)) ||| (p <<< 13)
      = tag.tic % 8192 ||| 2 ^ 13 * p := by
        rw [h1, and_8191_eq_mod, Nat.shiftLeft_eq, Nat.mul_comm]
    _ = 2 ^ 13 * p ||| tag.tic % 8192 := Nat.or_comm _ _
    _ = 2 ^ 13 * p + tag.tic % 8192 := (Nat.mul_add_lt_is_or h2 p).symm
    _ = p * 8192 + tag.tic % 8192 := by norm_num [Nat.mul_comm]

theorem set_pcp_pcp (tag : Q802_1Tag) (p : Nat) (hp : p ≤ 7) :
    ((tag.set_pcp p).2).pcp = p := by
  rw [Q802_1Tag.pcp_eq, set_pcp_tic tag p hp]
  omega

theorem set_pcp_vid (tag : Q802_1Tag) (p : Nat) :
    ((tag.set_pcp p).2).vid = tag.vid := by
  by_cases hp : p ≤ 7
  · rw [Q802_1Tag.vid_eq, Q802_1Tag.vid_eq, set_pcp_tic tag p hp]
    omega
  · rw [(set_pcp_err tag p (by omega)).2]

theorem set_pcp_dei (tag : Q802_1Tag) (p : Nat) :
    ((tag.set_pcp p).2).is_drop_eligible = tag.is_drop_eligible := by
  by_cases hp : p ≤ 7
  · rw [Q802_1Tag.dei_eq, Q802_1Tag.dei_eq, set_pcp_tic tag p hp]
    have h : (p * 8192 + tag.tic % 8192) / 4096 % 2 = tag.tic / 4096 % 2 := by omega
    rw [h]
  · rw [(set_pcp_err tag p (by omega)).2]

/-! ### Effect of `set_drop_eligible` -/

theorem set_dei_tic (tag : Q802_1Tag) (b : Bool) :
    (tag.set_drop_eligible b).tic =
      (tag.tic &&& 61439) ||| (if b then 4096 else 0) := by
  cases b
  · show (tag.tic &&& not16 (1 <<< 12)) ||| ((0 : Nat) <<< 12) = (tag.tic &&& 61439) ||| 0
    have hm : not16 (1 <<< 12) = 61439 := by decide
    have h0 : (0 : Nat) <<< 12 = 0 := by decide
    rw [hm, h0]
  · show (tag.tic &&& not16 (1 <<< 12)) ||| ((1 : Nat) <<< 12) = (tag.tic &&& 61439) ||| 4096
    have hm : not16 (1 <<< 12) = 61439 := by decide
    have h0 : (1 : Nat) <<< 12 = 4096 := by decide
    rw [hm, h0]

theorem set_dei_vid (tag : Q802_1Tag) (b : Bool) :
    (tag.set_drop_eligible b).vid = tag.vid := by
  show (tag.set_drop_eligible b).tic &&& 4095 = tag.tic &&& 4095
  rw [set_dei_tic]
  cases b
  · exact and_or_and_mask _ _ _ _ (by decide) (by decide)
  · exact and_or_and_mask _ _ _ _ (by decide) (by decide)

theorem set_dei_pcp (tag : Q802_1Tag) (b : Bool) :
    (tag.set_drop_eligible b).pcp = tag.pcp := by
  show ((tag.set_drop_eligible b).tic &&& 57344) >>> 13 = (tag.tic &&& 57344) >>> 13
  rw [set_dei_tic]
  cases b
  · rw [and_or_and_mask _ _ _ _ (by decide) (by decide)]
  · rw [and_or_and_mask _ _ _ _ (by decide) (by decide)]

theorem set_dei_dei (tag : Q802_1Tag) (b : Bool) :
    (tag.set_drop_eligible b).is_drop_eligible = b := by
  show ((((tag.set_drop_eligible b).tic &&& 4096) >>> 12) == 1) = b
  rw [set_dei_tic]
  cases b
  · rw [and_or_and_mask_set _ _ _ _ (by decide) (by decide)]
    decide
  · rw [and_or_and_mask_set _ _ _ _ (by decide) (by decide)]
    decide

/-! ### Effect of `set_vid` -/

theorem set_vid_ok (tag : Q802_1Tag) (v : Nat) (hv : v ≤ 4095) :
    (tag.set_vid v).1 = Except.ok () := by
  simp [Q802_1Tag.set_vid, hv]

theorem set_vid_err (tag : Q802_1Tag) (v : Nat) (hv : 4095 < v) :
    (tag.set_vid v).1 = Except.error BitPrimitiveError.ValueOutOfRange ∧
      (tag.set_vid v).2 = tag := by
  have hnv : ¬ v ≤ 4095 := by omega
  simp [Q802_1Tag.set_vid, hnv]

theorem set_vid_tic (tag : Q802_1Tag) (v : Nat) (hv : v ≤ 4095) :
    ((tag.set_vid v).2).tic = tag.tic ||| v := by
  simp [Q802_1Tag.set_vid, hv]

theorem set_vid_vid (tag : Q802_1Tag) (v : Nat) (hv : v ≤ 4095) :
    ((tag.set_vid v).2).vid = tag.vid ||| v := by
  show ((tag.set_vid v).2).tic &&& 4095 = (tag.tic &&& 4095) ||| v
  rw [set_vid_tic tag v hv, Nat.and_distrib_right]
  have h1 : v &&& 4095 = v := by
    rw [and_4095_eq_mod]
    omega
  rw [h1]

theorem set_vid_pcp (tag : Q802_1Tag) (v : Nat) :
    ((tag.set_vid v).2).pcp = tag.pcp := by
  by_cases hv : v ≤ 4095
  · show ((tag.set_vid v).2.tic &&& 57344) >>> 13 = (tag.tic &&& 57344) >>> 13
    rw [set_vid_tic tag v hv, Nat.and_distrib_right]
    have h1 : v &&& 57344 = 0 := by
      refine and_eq_zero_of_lt v 12 57344 (by norm_num; omega) (by decide)
    rw [h1, Nat.or_zero]
  · rw [(set_vid_err tag v (by omega)).2]

theorem set_vid_dei (tag : Q802_1Tag) (v : Nat) :
    ((tag.set_vid v).2).is_drop_eligible = tag.is_drop_eligible := by
  by_cases hv : v ≤ 4095
  · show (((tag.set_vid v).2.tic &&& 4096) >>> 12 == 1) = ((tag.tic &&& 4096) >>> 12 == 1)
    rw [set_vid_tic tag v hv, Nat.and_distrib_right]
    have h1 : v &&& 4096 = 0 := by
      refine and_eq_zero_of_lt v 12 4096 (by norm_num; omega) (by decide)
    rw [h1, Nat.or_zero]
  · rw [(set_vid_err tag v (by omega)).2]

/-! ### Readings of the default tag -/

theorem default_pcp : Q802_1Tag.default.pcp = 0 := by decide

theorem default_vid : Q802_1Tag.default.vid = 0 := by decide

theorem default_dei : Q802_1Tag.default.is_drop_eligible = false := by decide

/-! ### Claim theorems: fixed-width primitives -/

/-- C1: For every width W ∈ {1,2,3,4,12} (`Bit`, `Crumb`, `U3`, `Nibble`,
`U12`) and every raw value v, `try_from v` succeeds iff 0 ≤ v ≤ 2^W − 1,
returning a primitive whose stored value is exactly v; otherwise it fails
with `ValueOutOfRange`, with no truncation or wraparound. -/
theorem try_from_succeeds_iff_in_range :
    (∀ v : Nat, v ≤ 2 ^ 1 - 1 → Bit.try_from v = Except.ok { value := v }) ∧
    (∀ v : Nat, 2 ^ 1 - 1 < v →
      Bit.try_from v = Except.error BitPrimitiveError.ValueOutOfRange) ∧
    (∀ v : Nat, v ≤ 2 ^ 2 - 1 → Crumb.try_from v = Except.ok { value := v }) ∧
    (∀ v : Nat, 2 ^ 2 - 1 < v →
      Crumb.try_from v = Except.error BitPrimitiveError.ValueOutOfRange) ∧
    (∀ v : Nat, v ≤ 2 ^ 3 - 1 → U3.try_from v = Except.ok { value := v }) ∧
    (∀ v : Nat, 2 ^ 3 - 1 < v →
      U3.try_from v = Except.error BitPrimitiveError.ValueOutOfRange) ∧
    (∀ v : Nat, v ≤ 2 ^ 4 - 1 → Nibble.try_from v = Except.ok { value := v }) ∧
    (∀ v : Nat, 2 ^ 4 - 1 < v →
      Nibble.try_from v = Except.error BitPrimitiveError.ValueOutOfRange) ∧
    (∀ v : Nat, v ≤ 2 ^ 12 - 1 → U12.try_from v = Except.ok { value := v }) ∧
    (∀ v : Nat, 2 ^ 12 - 1 < v →
      U12.try_from v = Except.error BitPrimitiveError.ValueOutOfRange) := by
  refine ⟨fun v hv => ?_, fun v hv => ?_, fun v hv => ?_, fun v hv => ?_, fun v hv => ?_,
    fun v hv => ?_, fun v hv => ?_, fun v hv => ?_, fun v hv => ?_, fun v hv => ?_⟩
  · norm_num at hv
    unfold Bit.try_from
    exact if_pos ⟨Nat.zero_le v, hv⟩
  · norm_num at hv
    unfold Bit.try_from
    refine if_neg ?_
    rintro ⟨-, h2⟩
    have h3 : v ≤ 1 := h2
    omega
  · norm_num at hv
    unfold Crumb.try_from
    exact if_pos ⟨Nat.zero_le v, hv⟩
  · norm_num at hv
    unfold Crumb.try_from
    refine if_neg ?_
    rintro ⟨-, h2⟩
    have h3 : v ≤ 3 := h2
    omega
  · norm_num at hv
    unfold U3.try_from
    exact if_pos ⟨Nat.zero_le v, hv⟩
  · norm_num at hv
    unfold U3.try_from
    refine if_neg ?_
    rintro ⟨-, h2⟩
    have h3 : v ≤ 7 := h2
    omega
  · norm_num at hv
    unfold Nibble.try_from
    exact if_pos ⟨Nat.zero_le v, hv⟩
  · norm_num at hv
    unfold Nibble.try_from
    refine if_neg ?_
    rintro ⟨-, h2⟩
    have h3 : v ≤ 15 := h2
    omega
  · norm_num at hv
    unfold U12.try_from
    exact if_pos ⟨Nat.zero_le v, hv⟩
  · norm_num at hv
    unfold U12.try_from
    refine if_neg ?_
    rintro ⟨-, h2⟩
    have h3 : v ≤ 4095 := h2
    omega

/-- Witness for C1 at concrete inputs. -/
theorem try_from_succeeds_iff_in_range_witness :
    Bit.try_from 1 = Except.ok { value := 1 } ∧
      U12.try_from 4096 = Except.error BitPrimitiveError.ValueOutOfRange :=
  ⟨try_from_succeeds_iff_in_range.1 1 (by norm_num),
    try_from_succeeds_iff_in_range.2.2.2.2.2.2.2.2.2 4096 (by norm_num)⟩

/-- C2: For every fixed-width primitive p (all five widths) and value v:
if v ≤ MAX_VALUE then `set` returns Ok and the stored value becomes v; if
v > MAX_VALUE then `set` returns `ValueOutOfRange` and the primitive is
unchanged (no partial mutation). -/
theorem set_ok_or_unchanged :
    (∀ (p : Bit) (v : Nat), (v ≤ Bit.MAX_VALUE →
        (Bit.set p v).1 = Except.ok () ∧ ((Bit.set p v).2).value = v) ∧
      (Bit.MAX_VALUE < v →
        (Bit.set p v).1 = Except.error BitPrimitiveError.ValueOutOfRange ∧
          (Bit.set p v).2 = p)) ∧
    (∀ (p : Crumb) (v : Nat), (v ≤ Crumb.MAX_VALUE →
        (Crumb.set p v).1 = Except.ok () ∧ ((Crumb.set p v).2).value = v) ∧
      (Crumb.MAX_VALUE < v →
        (Crumb.set p v).1 = Except.error BitPrimitiveError.ValueOutOfRange ∧
          (Crumb.set p v).2 = p)) ∧
    (∀ (p : U3) (v : Nat), (v ≤ U3.MAX_VALUE →
        (U3.set p v).1 = Except.ok () ∧ ((U3.set p v).2).value = v) ∧
      (U3.MAX_VALUE < v →
        (U3.set p v).1 = Except.error BitPrimitiveError.ValueOutOfRange ∧
          (U3.set p v).2 = p)) ∧
    (∀ (p : Nibble) (v : Nat), (v ≤ Nibble.MAX_VALUE →
        (Nibble.set p v).1 = Except.ok () ∧ ((Nibble.set p v).2).value = v) ∧
      (Nibble.MAX_VALUE < v →
        (Nibble.set p v).1 = Except.error BitPrimitiveError.ValueOutOfRange ∧
          (Nibble.set p v).2 = p)) ∧
    (∀ (p : U12) (v : Nat), (v ≤ U12.MAX_VALUE →
        (U12.set p v).1 = Except.ok () ∧ ((U12.set p v).2).value = v) ∧
      (U12.MAX_VALUE < v →
        (U12.set p v).1 = Except.error BitPrimitiveError.ValueOutOfRange ∧
          (U12.set p v).2 = p)) := by
  refine ⟨fun p v => ⟨fun hv => ?_, fun hv => ?_⟩, fun p v => ⟨fun hv => ?_, fun hv => ?_⟩,
    fun p v => ⟨fun hv => ?_, fun hv => ?_⟩, fun p v => ⟨fun hv => ?_, fun hv => ?_⟩,
    fun p v => ⟨fun hv => ?_, fun hv => ?_⟩⟩
  · unfold Bit.set
    rw [if_pos ⟨Nat.zero_le v, hv⟩]
    exact ⟨rfl, rfl⟩
  · unfold Bit.set
    rw [if_neg (fun hg => absurd hg.2 (by omega))]
    exact ⟨rfl, rfl⟩
  · unfold Crumb.set
    rw [if_pos ⟨Nat.zero_le v, hv⟩]
    exact ⟨rfl, rfl⟩
  · unfold Crumb.set
    rw [if_neg (fun hg => absurd hg.2 (by omega))]
    exact ⟨rfl, rfl⟩
  · unfold U3.set
    rw [if_pos ⟨Nat.zero_le v, hv⟩]
    exact ⟨rfl, rfl⟩
  · unfold U3.set
    rw [if_neg (fun hg => absurd hg.2 (by omega))]
    exact ⟨rfl, rfl⟩
  · unfold Nibble.set
    rw [if_pos ⟨Nat.zero_le v, hv⟩]
    exact ⟨rfl, rfl⟩
  · unfold Nibble.set
    rw [if_neg (fun hg => absurd hg.2 (by omega))]
    exact ⟨rfl, rfl⟩
  · unfold U12.set
    rw [if_pos ⟨Nat.zero_le v, hv⟩]
    exact ⟨rfl, rfl⟩
  · unfold U12.set
    rw [if_neg (fun hg => absurd hg.2 (by omega))]
    exact ⟨rfl, rfl⟩

/-- Witness for C2 at concrete inputs. -/
theorem set_ok_or_unchanged_witness :
    ((U3.set { value := 2 } 5).1 = Except.ok () ∧
      ((U3.set { value := 2 } 5).2).value = 5) ∧
    ((U3.set { value := 2 } 9).1 = Except.error BitPrimitiveError.ValueOutOfRange ∧
      (U3.set { value := 2 } 9).2 = { value := 2 }) :=
  ⟨(set_ok_or_unchanged.2.2.1 { value := 2 } 5).1 (by decide),
    (set_ok_or_unchanged.2.2.1 { value := 2 } 9).2 (by decide)⟩

/-- C3: For each width the public constants satisfy MIN_VALUE = 0 and
MAX_VALUE = 2^W − 1 (for `Bit` via `2^(BIT_WIDTH − 1)`), and every primitive
reachable via `try_from`, `default`, or successful `set` calls satisfies
`is_valid`. -/
theorem constants_and_reachable_valid :
    (Bit.MIN_VALUE = 0 ∧ Bit.MAX_VALUE = 2 ^ 1 - 1 ∧
      Crumb.MIN_VALUE = 0 ∧ Crumb.MAX_VALUE = 2 ^ 2 - 1 ∧
      U3.MIN_VALUE = 0 ∧ U3.MAX_VALUE = 2 ^ 3 - 1 ∧
      Nibble.MIN_VALUE = 0 ∧ Nibble.MAX_VALUE = 2 ^ 4 - 1 ∧
      U12.MIN_VALUE = 0 ∧ U12.MAX_VALUE = 2 ^ 12 - 1) ∧
    (∀ p : Bit, Bit.Reachable p → Bit.is_valid p = true) ∧
    (∀ p : Crumb, Crumb.Reachable p → Crumb.is_valid p = true) ∧
    (∀ p : U3, U3.Reachable p → U3.is_valid p = true) ∧
    (∀ p : Nibble, Nibble.Reachable p → Nibble.is_valid p = true) ∧
    (∀ p : U12, U12.Reachable p → U12.is_valid p = true) := by
  refine ⟨⟨rfl, rfl, rfl, rfl, rfl, rfl, rfl, rfl, rfl, rfl⟩,
    fun p hp => ?_, fun p hp => ?_, fun p hp => ?_, fun p hp => ?_, fun p hp => ?_⟩
  · induction hp with
    | of_try_from v q h =>
        unfold Bit.try_from at h
        split at h
        · next hg =>
            cases h
            simpa [Bit.is_valid] using hg
        · cases h
    | of_default => decide
    | of_set q v hr hok ih =>
        by_cases hg : Bit.MIN_VALUE ≤ v ∧ v ≤ Bit.MAX_VALUE
        · simp [Bit.set, hg, Bit.is_valid]
        · simpa [Bit.set, hg] using ih
  · induction hp with
    | of_try_from v q h =>
        unfold Crumb.try_from at h
        split at h
        · next hg =>
            cases h
            simpa [Crumb.is_valid] using hg
        · cases h
    | of_default => decide
    | of_set q v hr hok ih =>
        by_cases hg : Crumb.MIN_VALUE ≤ v ∧ v ≤ Crumb.MAX_VALUE
        · simp [Crumb.set, hg, Crumb.is_valid]
        · simpa [Crumb.set, hg] using ih
  · induction hp with
    | of_try_from v q h =>
        unfold U3.try_from at h
        split at h
        · next hg =>
            cases h
            simpa [U3.is_valid] using hg
        · cases h
    | of_default => decide
    | of_set q v hr hok ih =>
        by_cases hg : U3.MIN_VALUE ≤ v ∧ v ≤ U3.MAX_VALUE
        · simp [U3.set, hg, U3.is_valid]
        · simpa [U3.set, hg] using ih
  · induction hp with
    | of_try_from v q h =>
        unfold Nibble.try_from at h
        split at h
        · next hg =>
            cases h
            simpa [Nibble.is_valid] using hg
        · cases h
    | of_default => decide
    | of_set q v hr hok ih =>
        by_cases hg : Nibble.MIN_VALUE ≤ v ∧ v ≤ Nibble.MAX_VALUE
        · simp [Nibble.set, hg, Nibble.is_valid]
        · simpa [Nibble.set, hg] using ih
  · induction hp with
    | of_try_from v q h =>
        unfold U12.try_from at h
        split at h
        · next hg =>
            cases h
            simpa [U12.is_valid] using hg
        · cases h
    | of_default => decide
    | of_set q v hr hok ih =>
        by_cases hg : U12.MIN_VALUE ≤ v ∧ v ≤ U12.MAX_VALUE
        · simp [U12.set, hg, U12.is_valid]
        · simpa [U12.set, hg] using ih

/-- Witness for C3 at a concrete reachable primitive. -/
theorem constants_and_reachable_valid_witness : U12.is_valid U12.default = true :=
  constants_and_reachable_valid.2.2.2.2.2 U12.default U12.Reachable.of_default

/-! ### Claim theorems: 802.1Q tag codec -/

/-- C4: The getters decompose the stored TCI word by the fixed layout:
`pcp` returns bits 15–13, `is_drop_eligible` is true iff bit 12 is 1, and
`vid` returns the low 12 bits. -/
theorem tci_getters_decompose_layout :
    ∀ tag : Q802_1Tag,
      tag.pcp = tag.tic / 2 ^ 13 % 2 ^ 3 ∧
      (tag.is_drop_eligible = true ↔ tag.tic / 2 ^ 12 % 2 = 1) ∧
      tag.vid = tag.tic % 2 ^ 12 := by
  intro tag
  refine ⟨?_, ?_, ?_⟩
  · rw [Q802_1Tag.pcp_eq]
    norm_num
  · rw [Q802_1Tag.dei_eq]
    norm_num
  · rw [Q802_1Tag.vid_eq]
    norm_num

/-- C5: `set_pcp` fails with `ValueOutOfRange` iff the value exceeds 0b111;
on success it rewrites bits 15–13 and leaves DEI and VID unchanged.
`set_drop_eligible` writes only bit 12, never touching PCP or VID.  The two
setters are order-independent and never corrupt VID. -/
theorem set_pcp_set_dei_effects :
    ∀ (tag : Q802_1Tag) (p : Nat) (b : Bool),
      ((tag.set_pcp p).1 = Except.error BitPrimitiveError.ValueOutOfRange ↔ 7 < p) ∧
      (p ≤ 7 → ((tag.set_pcp p).2).pcp = p ∧
        ((tag.set_pcp p).2).is_drop_eligible = tag.is_drop_eligible ∧
        ((tag.set_pcp p).2).vid = tag.vid) ∧
      ((tag.set_drop_eligible b).is_drop_eligible = b ∧
        (tag.set_drop_eligible b).pcp = tag.pcp ∧
        (tag.set_drop_eligible b).vid = tag.vid) ∧
      (p ≤ 7 →
        ((tag.set_pcp p).2.set_drop_eligible b).pcp =
          ((tag.set_drop_eligible b).set_pcp p).2.pcp ∧
        ((tag.set_pcp p).2.set_drop_eligible b).is_drop_eligible =
          ((tag.set_drop_eligible b).set_pcp p).2.is_drop_eligible ∧
        ((tag.set_pcp p).2.set_drop_eligible b).vid =
          ((tag.set_drop_eligible b).set_pcp p).2.vid ∧
        ((tag.set_pcp p).2.set_drop_eligible b).vid = tag.vid) := by
  intro tag p b
  refine ⟨⟨fun he => ?_, fun hp => (set_pcp_err tag p hp).1⟩,
    fun hp => ⟨set_pcp_pcp tag p hp, set_pcp_dei tag p, set_pcp_vid tag p⟩,
    ⟨set_dei_dei tag b, set_dei_pcp tag b, set_dei_vid tag b⟩,
    fun hp => ⟨?_, ?_, ?_, ?_⟩⟩
  · by_contra hp
    rw [set_pcp_ok tag p (by omega)] at he
    simp at he
  · rw [set_dei_pcp, set_pcp_pcp tag p hp, set_pcp_pcp (tag.set_drop_eligible b) p hp]
  · rw [set_dei_dei, set_pcp_dei, set_dei_dei]
  · rw [set_dei_vid, set_pcp_vid, set_pcp_vid, set_dei_vid]
  · rw [set_dei_vid, set_pcp_vid]

/-- Witness for C5 at concrete inputs. -/
theorem set_pcp_set_dei_effects_witness :
    (((Q802_1Tag.mk 0x8100 0x1234).set_pcp 5).2).pcp = 5 :=
  ((set_pcp_set_dei_effects (Q802_1Tag.mk 0x8100 0x1234) 5 true).2.1 (by norm_num)).1

/-- C6: `set_vid` fails with `ValueOutOfRange` and leaves the tag unchanged
iff the value exceeds 0xFFF; on success the new TCI word is the old word
bitwise-OR the value (additive OR, no clearing), so the subsequent `vid`
reading is the old VID bits OR the value, while PCP and DEI are unaffected. -/
theorem set_vid_additive_or :
    ∀ (tag : Q802_1Tag) (v : Nat),
      ((tag.set_vid v).1 = Except.error BitPrimitiveError.ValueOutOfRange ∧
          (tag.set_vid v).2 = tag ↔ 4095 < v) ∧
      (v ≤ 4095 →
        ((tag.set_vid v).2).tic = tag.tic ||| v ∧
        ((tag.set_vid v).2).vid = tag.vid ||| v ∧
        ((tag.set_vid v).2).pcp = tag.pcp ∧
        ((tag.set_vid v).2).is_drop_eligible = tag.is_drop_eligible) := by
  intro tag v
  constructor
  · constructor
    · rintro ⟨he, -⟩
      by_contra hv
      rw [set_vid_ok tag v (by omega)] at he
      simp at he
    · intro hv
      exact set_vid_err tag v hv
  · intro hv
    exact ⟨set_vid_tic tag v hv, set_vid_vid tag v hv, set_vid_pcp tag v, set_vid_dei tag v⟩

/-- Witness for C6: OR-ing a VID into a tag whose VID bits are already set. -/
theorem set_vid_additive_or_witness :
    (((Q802_1Tag.mk 0x8100 240).set_vid 15).2).vid = (Q802_1Tag.mk 0x8100 240).vid ||| 15 :=
  ((set_vid_additive_or (Q802_1Tag.mk 0x8100 240) 15).2 (by norm_num)).2.1

/-- C7: Starting from the default tag, for every valid pcp ∈ [0,7],
dei ∈ {false,true} and vid ∈ [0,4095], calling the three setters once each
in any of the 6 possible orders succeeds, and afterwards the three getters
return exactly the written triple, independent of call order. -/
theorem tag_round_trip_all_orders :
    ∀ (p v : Nat) (d : Bool), p ≤ 7 → v ≤ 4095 →
      ((Q802_1Tag.default.set_pcp p).1 = Except.ok () ∧
       ((((Q802_1Tag.default.set_pcp p).2).set_drop_eligible d).set_vid v).1 = Except.ok () ∧
       (((((Q802_1Tag.default.set_pcp p).2).set_drop_eligible d).set_vid v).2).pcp = p ∧
       (((((Q802_1Tag.default.set_pcp p).2).set_drop_eligible d).set_vid v).2).is_drop_eligible = d ∧
       (((((Q802_1Tag.default.set_pcp p).2).set_drop_eligible d).set_vid v).2).vid = v) ∧
      ((Q802_1Tag.default.set_pcp p).1 = Except.ok () ∧
       (((Q802_1Tag.default.set_pcp p).2).set_vid v).1 = Except.ok () ∧
       (((((Q802_1Tag.default.set_pcp p).2).set_vid v).2).set_drop_eligible d).pcp = p ∧
       (((((Q802_1Tag.default.set_pcp p).2).set_vid v).2).set_drop_eligible d).is_drop_eligible = d ∧
       (((((Q802_1Tag.default.set_pcp p).2).set_vid v).2).set_drop_eligible d).vid = v) ∧
      (((Q802_1Tag.default.set_drop_eligible d).set_pcp p).1 = Except.ok () ∧
       ((((Q802_1Tag.default.set_drop_eligible d).set_pcp p).2).set_vid v).1 = Except.ok () ∧
       (((((Q802_1Tag.default.set_drop_eligible d).set_pcp p).2).set_vid v).2).pcp = p ∧
       (((((Q802_1Tag.default.set_drop_eligible d).set_pcp p).2).set_vid v).2).is_drop_eligible = d ∧
       (((((Q802_1Tag.default.set_drop_eligible d).set_pcp p).2).set_vid v).2).vid = v) ∧
      (((Q802_1Tag.default.set_drop_eligible d).set_vid v).1 = Except.ok () ∧
       ((((Q802_1Tag.default.set_drop_eligible d).set_vid v).2).set_pcp p).1 = Except.ok () ∧
       (((((Q802_1Tag.default.set_drop_eligible d).set_vid v).2).set_pcp p).2).pcp = p ∧
       (((((Q802_1Tag.default.set_drop_eligible d).set_vid v).2).set_pcp p).2).is_drop_eligible = d ∧
       (((((Q802_1Tag.default.set_drop_eligible d).set_vid v).2).set_pcp p).2).vid = v) ∧
      ((Q802_1Tag.default.set_vid v).1 = Except.ok () ∧
       (((Q802_1Tag.default.set_vid v).2).set_pcp p).1 = Except.ok () ∧
       ((((((Q802_1Tag.default.set_vid v).2).set_pcp p).2).set_drop_eligible d)).pcp = p ∧
       ((((((Q802_1Tag.default.set_vid v).2).set_pcp p).2).set_drop_eligible d)).is_drop_eligible = d ∧
       ((((((Q802_1Tag.default.set_vid v).2).set_pcp p).2).set_drop_eligible d)).vid = v) ∧
      ((Q802_1Tag.default.set_vid v).1 = Except.ok () ∧
       ((((Q802_1Tag.default.set_vid v).2).set_drop_eligible d).set_pcp p).1 = Except.ok () ∧
       (((((Q802_1Tag.default.set_vid v).2).set_drop_eligible d).set_pcp p).2).pcp = p ∧
       (((((Q802_1Tag.default.set_vid v).2).set_drop_eligible d).set_pcp p).2).is_drop_eligible = d ∧
       (((((Q802_1Tag.default.set_vid v).2).set_drop_eligible d).set_pcp p).2).vid = v) := by
  intro p v d hp hv
  refine ⟨⟨?_, ?_, ?_, ?_, ?_⟩, ⟨?_, ?_, ?_, ?_, ?_⟩, ⟨?_, ?_, ?_, ?_, ?_⟩,
    ⟨?_, ?_, ?_, ?_, ?_⟩, ⟨?_, ?_, ?_, ?_, ?_⟩, ⟨?_, ?_, ?_, ?_, ?_⟩⟩ <;>
    simp [set_pcp_ok _ p hp, set_vid_ok _ v hv, set_pcp_pcp _ p hp, set_pcp_dei, set_pcp_vid,
      set_dei_dei, set_dei_pcp, set_dei_vid, set_vid_vid _ v hv, set_vid_pcp, set_vid_dei,
      default_pcp, default_dei, default_vid]

/-- Witness for C7 at the concrete triple used in the repository's tests. -/
theorem tag_round_trip_all_orders_witness :
    ((((((Q802_1Tag.default.set_vid 3456).2).set_drop_eligible true).set_pcp 5).2)).vid = 3456 :=
  (tag_round_trip_all_orders 5 3456 true (by norm_num) (by norm_num)).2.2.2.2.2.2.2.2.2

/-- Witness for C4 at a concrete tag. -/
theorem tci_getters_decompose_layout_witness :
    (Q802_1Tag.mk 0x8100 0xABCD).pcp = 0xABCD / 2 ^ 13 % 2 ^ 3 :=
  (tci_getters_decompose_layout (Q802_1Tag.mk 0x8100 0xABCD)).1

/-! ### Claim theorems: EtherType classification and tag validity -/

/-- C8: `EtherType::try_from` classifies exactly three ways, in order:
values ≤ 1500 (inclusive) fail with `EtherTypeIsLength`; 0x0800 succeeds
with `IPv4`; everything else fails with `UnknownEtherType`.  In particular
1500, 1501 and 0x0800 behave as stated. -/
theorem ether_type_classification :
    (∀ v : Nat, v ≤ 1500 → EtherType.tryFrom v = Except.error EthError.EtherTypeIsLength) ∧
    (∀ v : Nat, 1500 < v → v = 0x0800 → EtherType.tryFrom v = Except.ok EtherType.IPv4) ∧
    (∀ v : Nat, 1500 < v → v ≠ 0x0800 →
      EtherType.tryFrom v = Except.error EthError.UnknownEtherType) ∧
    EtherType.tryFrom 1500 = Except.error EthError.EtherTypeIsLength ∧
    EtherType.tryFrom 1501 = Except.error EthError.UnknownEtherType ∧
    EtherType.tryFrom 0x0800 = Except.ok EtherType.IPv4 := by
  refine ⟨fun v hv => ?_, fun v h1 h2 => ?_, fun v h1 h2 => ?_, rfl, rfl, rfl⟩
  · unfold EtherType.tryFrom
    rw [if_pos hv]
  · subst h2
    rfl
  · unfold EtherType.tryFrom
    rw [if_neg (by omega), if_neg h2]

/-- Witness for C8 at concrete inputs. -/
theorem ether_type_classification_witness :
    EtherType.tryFrom 100 = Except.error EthError.EtherTypeIsLength ∧
      EtherType.tryFrom 0x9999 = Except.error EthError.UnknownEtherType :=
  ⟨ether_type_classification.1 100 (by norm_num),
    ether_type_classification.2.2.1 0x9999 (by norm_num) (by norm_num)⟩

/-- C9: `is_valid` is true exactly when the stored TPID equals 0x8100;
`default` and every `new tic` are valid (`new` never validates the TCI
word), and a tag with any other TPID is invalid while its getters read the
TCI word exactly as for a standard tag. -/
theorem tag_validity_tpid_only :
    (∀ tag : Q802_1Tag, tag.is_valid = true ↔ tag.tpid = 0x8100) ∧
    Q802_1Tag.default.is_valid = true ∧
    (∀ tic : Nat, (Q802_1Tag.new tic).is_valid = true) ∧
    (∀ tpid tic : Nat, tpid ≠ 0x8100 →
      (Q802_1Tag.mk tpid tic).is_valid = false ∧
      (Q802_1Tag.mk tpid tic).pcp = (Q802_1Tag.mk 0x8100 tic).pcp ∧
      (Q802_1Tag.mk tpid tic).is_drop_eligible = (Q802_1Tag.mk 0x8100 tic).is_drop_eligible ∧
      (Q802_1Tag.mk tpid tic).vid = (Q802_1Tag.mk 0x8100 tic).vid) := by
  refine ⟨fun tag => ?_, by decide, fun tic => ?_, fun tpid tic h => ⟨?_, rfl, rfl, rfl⟩⟩
  · simp [Q802_1Tag.is_valid, Q802_1Tag.TPID]
  · simp [Q802_1Tag.new, Q802_1Tag.is_valid]
  · simp [Q802_1Tag.is_valid, Q802_1Tag.TPID, h]

/-- Witness for C9: a tag with a foreign TPID is invalid. -/
theorem tag_validity_tpid_only_witness : (Q802_1Tag.mk 0x9100 7).is_valid = false :=
  (tag_validity_tpid_only.2.2.2 0x9100 7 (by norm_num)).1

/-- C10: classification never yields the `Empty` sentinel: for every raw
value, `try_from` never returns `Ok(Empty)`; 0x0000 (the numeric code of
`Empty`) fails as a length, and `Empty` is reached only by naming the
variant, e.g. through `EthLayer`'s default. -/
theorem try_from_never_empty :
    (∀ v : Nat, EtherType.tryFrom v ≠ Except.ok EtherType.Empty) ∧
    EtherType.code EtherType.Empty = 0 ∧
    EtherType.tryFrom 0 = Except.error EthError.EtherTypeIsLength ∧
    EthLayer.default.ether_type = EtherType.Empty := by
  refine ⟨fun v h => ?_, rfl, rfl, rfl⟩
  unfold EtherType.tryFrom at h
  by_cases h1 : v ≤ 1500
  · rw [if_pos h1] at h
    simp at h
  · rw [if_neg h1] at h
    by_cases h2 : v = 0x0800
    · rw [if_pos h2] at h
      simp at h
    · rw [if_neg h2] at h
      simp at h

/-- Witness for C10 at a concrete input. -/
theorem try_from_never_empty_witness :
    EtherType.tryFrom 0 ≠ Except.ok EtherType.Empty :=
  try_from_never_empty.1 0
